import Mathlib

/-!
Verification of the Listening_Test manifest generators.

Shallow embedding of `src/generate_configs.py` and `src/generate_configs_aws.py`.
Both scripts enumerate 24 trial folder names, list audio files per folder,
emit a per-trial `config.json` manifest and a global `trials_list.json` index.

The filesystem is modelled as a map from trial folder name to `Option (List String)`:
`none` when the folder does not exist, `some entries` the names of the files it
contains. Python's `sorted` on strings (lexicographic by code point) is modelled
by insertion sort over `String`'s linear order; `Path.glob("*.wav")` over a flat
folder is modelled as filtering names by the suffix obtained from the pattern by
dropping the leading `*`.
-/

namespace ListeningTest

/-- Configuration constant `GITHUB_USER` of generate_configs.py (line 6). -/
def GITHUB_USER : String := "yttehs"

/-- Configuration constant `GITHUB_REPO` of generate_configs.py (line 7). -/
def GITHUB_REPO : String := "Listening_Test"

/-- Configuration constant `GITHUB_BRANCH` of generate_configs.py (line 8). -/
def GITHUB_BRANCH : String := "main"

/-- The placeholder value both scripts compare `BASE_PATH` against in their
`__main__` blocks before doing any work. -/
def BASE_PATH_placeholder : String := "/path/to/your/Listening_Test"

/-- The shipped value of `S3_BUCKET_NAME` in generate_configs_aws.py line 6,
whose comment documents it as a value to update. -/
def S3_BUCKET_NAME_default : String := "listening-test-audio-files"

/-- The shipped value of `S3_REGION` in generate_configs_aws.py line 7,
whose comment documents it as a value to update. -/
def S3_REGION_default : String := "us-west-1"

/-- Constant `GENDERS` (both scripts). -/
def GENDERS : List String := ["Male", "Female"]

/-- Constant `STYLES` (both scripts). -/
def STYLES : List String := ["read", "conv"]

/-- Constant `MG_COMBINATIONS` (both scripts). -/
def MG_COMBINATIONS : List String :=
  ["MG1_MG2", "MG1_MG3", "MG1_MG4", "MG2_MG3", "MG2_MG4", "MG3_MG4"]

/-- Function `generate_trial_folders` (identical in both scripts): the nested loop
gender, then style, then pair, appending the f-string joining gender, style and mg_combo with underscores. -/
def generate_trial_folders : List String :=
  GENDERS.flatMap (fun gender =>
    STYLES.flatMap (fun style =>
      MG_COMBINATIONS.map (fun mg_combo =>
        gender ++ "_" ++ style ++ "_" ++ mg_combo)))

/-- Model of the on-disk tree under `BASE_PATH`: each trial folder name maps to
`none` (folder absent) or `some entries` (names of the files it contains). -/
abbrev FS := String → Option (List String)

/-- Python's `sorted` on a list of strings: ascending lexicographic order. -/
def pySorted (l : List String) : List String :=
  l.insertionSort (· ≤ ·)

/-- Suffix test on strings, by their character lists. -/
def strEndsWith (s post : String) : Bool :=
  post.data.isSuffixOf s.data

/-- Model of `folder.glob(pattern)` for the flat patterns used here (`"*.wav"`, `"*.mp3"`):
a name matches when it ends with the pattern minus its leading `*`. -/
def globMatches (pattern : String) (name : String) : Bool :=
  strEndsWith name (pattern.drop 1)

/-- The warning printed by both scripts' `get_audio_files` when the folder is
missing. -/
def missingFolderWarning (trial_folder_path : String) : String :=
  "Warning: Folder " ++ trial_folder_path ++ " does not exist!"

/-- Function `get_audio_files` of generate_configs.py (lines 26-39): returns the pair
(printed warning lines, matching file names). Missing folder: one warning,
empty list. Existing folder: the `*.wav` names sorted alphabetically. -/
def get_audio_files (trial_folder_path : String) (folder : Option (List String)) :
    List String × List String :=
  match folder with
  | none => ([missingFolderWarning trial_folder_path], [])
  | some entries => ([], pySorted (entries.filter (globMatches "*.wav")))

/-- Function `get_audio_files` of generate_configs_aws.py (lines 28-42): iterates the
patterns `*.wav` then `*.mp3` in order, appending the sorted matches of each. -/
def get_audio_files_aws (trial_folder_path : String) (folder : Option (List String)) :
    List String × List String :=
  match folder with
  | none => ([missingFolderWarning trial_folder_path], [])
  | some entries =>
      ([], ["*.wav", "*.mp3"].flatMap (fun ext =>
        pySorted (entries.filter (globMatches ext))))

/-- One element of a manifest's `audioFiles` array. -/
structure AudioEntry where
  circle : Nat
  filename : String
  url : String
deriving DecidableEq, Repr

/-- The content of a per-trial `config.json`. -/
structure Config where
  trialId : String
  audioFiles : List AudioEntry
deriving DecidableEq, Repr

/-- The GitHub raw-content URL built inside `create_config_json`
(generate_configs.py line 49). -/
def github_audio_url (trial_name filename : String) : String :=
  "https://raw.githubusercontent.com/" ++ GITHUB_USER ++ "/" ++ GITHUB_REPO ++ "/"
    ++ GITHUB_BRANCH ++ "/" ++ trial_name ++ "/" ++ filename

/-- Constant `S3_BASE_URL` of generate_configs_aws.py (line 11), with the two module
constants passed explicitly. -/
def S3_BASE_URL (bucket region : String) : String :=
  "https://" ++ bucket ++ ".s3." ++ region ++ ".amazonaws.com"

/-- The S3 object URL built inside the AWS `create_config_json` (line 53). -/
def s3_audio_url (bucket region trial_name filename : String) : String :=
  S3_BASE_URL bucket region ++ "/" ++ trial_name ++ "/" ++ filename

/-- Function `create_config_json` of generate_configs.py (lines 41-57): Python's
`enumerate(audio_files)` is `List.enum`; each file at index `idx` yields an
entry with `circle = idx + 1`. -/
def create_config_json (trial_name : String) (audio_files : List String) : Config :=
  { trialId := trial_name
    audioFiles := audio_files.enum.map (fun p =>
      { circle := p.1 + 1
        filename := p.2
        url := github_audio_url trial_name p.2 }) }

/-- Function `create_config_json` of generate_configs_aws.py (lines 44-61): same loop,
S3 URL format. -/
def create_config_json_aws (bucket region trial_name : String)
    (audio_files : List String) : Config :=
  { trialId := trial_name
    audioFiles := audio_files.enum.map (fun p =>
      { circle := p.1 + 1
        filename := p.2
        url := s3_audio_url bucket region trial_name p.2 }) }

/-- One line of the summary accumulated by `generate_all_configs`, carrying
the trial name and its file count. -/
structure SummaryItem where
  trial : String
  num_files : Nat
deriving DecidableEq, Repr

/-- A `config.json` write performed by `save_config_file`: the trial folder it
lands in and the serialized content. -/
structure ConfigWrite where
  trial : String
  config : Config
deriving DecidableEq, Repr

/-- An entry of `trials_list.json`: fields id, name and numFiles. -/
structure TrialIndexEntry where
  id : String
  name : String
  numFiles : Nat
deriving DecidableEq, Repr

/-- Model of the call replacing underscores in trial names (generate_configs.py line 118): for the
single-character pattern `"_"` Python's `str.replace` is exactly character-wise
replacement of `'_'` by `' '`. -/
def replace_underscores (s : String) : String :=
  String.mk (s.data.map (fun c => if c = '_' then ' ' else c))

/-- The path `Path(BASE_PATH) / trial_name` passed to `get_audio_files`. -/
def trial_path (base trial_name : String) : String :=
  base ++ "/" ++ trial_name

/-- Function `generate_all_configs` of generate_configs.py (lines 68-104), as the list of
(config.json write, summary line) pairs its loop produces: the `continue` on an
empty file list is `filterMap` returning `none`. -/
def generate_all_configs (base : String) (fs : FS) :
    List (ConfigWrite × SummaryItem) :=
  generate_trial_folders.filterMap (fun trial_name =>
    let audio_files := (get_audio_files (trial_path base trial_name) (fs trial_name)).2
    if audio_files.isEmpty then none
    else some (⟨trial_name, create_config_json trial_name audio_files⟩,
               ⟨trial_name, audio_files.length⟩))

/-- AWS variant of `generate_all_configs` (generate_configs_aws.py lines 72-111):
same loop with the two-extension listing and S3 URLs. -/
def generate_all_configs_aws (bucket region base : String) (fs : FS) :
    List (ConfigWrite × SummaryItem) :=
  generate_trial_folders.filterMap (fun trial_name =>
    let audio_files := (get_audio_files_aws (trial_path base trial_name) (fs trial_name)).2
    if audio_files.isEmpty then none
    else some (⟨trial_name, create_config_json_aws bucket region trial_name audio_files⟩,
               ⟨trial_name, audio_files.length⟩))

/-- Function `generate_trials_list` of generate_configs.py (lines 106-127), as the
`trials_list` value it serializes into the file trials_list.json under `BASE_PATH`. -/
def generate_trials_list (base : String) (fs : FS) : List TrialIndexEntry :=
  generate_trial_folders.filterMap (fun trial_name =>
    let audio_files := (get_audio_files (trial_path base trial_name) (fs trial_name)).2
    if audio_files.isEmpty then none
    else some ⟨trial_name, replace_underscores trial_name, audio_files.length⟩)

/-- AWS variant of `generate_trials_list` (generate_configs_aws.py lines 113-134). -/
def generate_trials_list_aws (base : String) (fs : FS) : List TrialIndexEntry :=
  generate_trial_folders.filterMap (fun trial_name =>
    let audio_files := (get_audio_files_aws (trial_path base trial_name) (fs trial_name)).2
    if audio_files.isEmpty then none
    else some ⟨trial_name, replace_underscores trial_name, audio_files.length⟩)

/-- The `Warning: Folder ... does not exist!` lines printed by one
enumerate-and-list pass of generate_configs.py over all 24 trials. -/
def pass_folder_warnings (base : String) (fs : FS) : List String :=
  generate_trial_folders.flatMap (fun t =>
    (get_audio_files (trial_path base t) (fs t)).1)

/-- The missing-folder warning lines of one pass of generate_configs_aws.py. -/
def pass_folder_warnings_aws (base : String) (fs : FS) : List String :=
  generate_trial_folders.flatMap (fun t =>
    (get_audio_files_aws (trial_path base t) (fs t)).1)

/-- Observable result of one whole script run: the process exit code, the error
lines of a placeholder abort, the startup configuration warnings (AWS only),
the missing-folder warnings, the `config.json` writes, and the value written to
`trials_list.json` (`none` when the run aborted before reaching it). -/
structure RunResult where
  exit_code : Nat
  error_lines : List String
  startup_warning_lines : List String
  folder_warning_lines : List String
  config_writes : List ConfigWrite
  index_write : Option (List TrialIndexEntry)
deriving DecidableEq, Repr

/-- The two instructional lines generate_configs.py prints before `exit(1)`
when `BASE_PATH` is at its placeholder (lines 134-137). -/
def base_path_error_lines : List String :=
  ["ERROR: Please update BASE_PATH in the script to point to your local Listening_Test folder!",
   "Example: BASE_PATH = \x27/Users/yourname/Documents/Listening_Test\x27"]

/-- The `__main__` block of generate_configs.py (lines 129-145): abort with exit
code 1 and the instructional message when `BASE_PATH` equals the placeholder —
before touching the filesystem — otherwise run both passes and exit 0. -/
def main_github (base_path : String) (fs : FS) : RunResult :=
  if base_path = BASE_PATH_placeholder then
    { exit_code := 1
      error_lines := base_path_error_lines
      startup_warning_lines := []
      folder_warning_lines := []
      config_writes := []
      index_write := none }
  else
    { exit_code := 0
      error_lines := []
      startup_warning_lines := []
      folder_warning_lines :=
        pass_folder_warnings base_path fs ++ pass_folder_warnings base_path fs
      config_writes := (generate_all_configs base_path fs).map (·.1)
      index_write := some (generate_trials_list base_path fs) }

/-- The two instructional lines generate_configs_aws.py prints before `exit(1)`
on a placeholder `BASE_PATH` (lines 141-144). -/
def base_path_error_lines_aws : List String :=
  ["ERROR: Please update BASE_PATH in the script!",
   "Example: BASE_PATH = \x27/Users/yourname/Documents/Listening_Test\x27"]

/-- The non-fatal startup warnings of generate_configs_aws.py (lines 146-152):
a bucket warning when `S3_BUCKET_NAME` equals its shipped default, and a region
warning when `S3_REGION` equals `"us-west-2"` — which the shipped default
`"us-west-1"` does not. Neither warning exits. -/
def aws_startup_warnings (bucket region : String) : List String :=
  (if bucket = "listening-test-audio-files" then
    ["WARNING: Using default bucket name \x27listening-test-audio-files\x27",
     "Make sure this matches your actual S3 bucket name!"]
   else []) ++
  (if region = "us-west-2" then
    ["WARNING: Using default region \x27us-west-2\x27",
     "Make sure this matches your S3 bucket region!"]
   else [])

/-- The `__main__` block of generate_configs_aws.py (lines 136-158): only the
`BASE_PATH` placeholder aborts; bucket and region checks print warnings and
processing continues. -/
def main_aws (base_path bucket region : String) (fs : FS) : RunResult :=
  if base_path = BASE_PATH_placeholder then
    { exit_code := 1
      error_lines := base_path_error_lines_aws
      startup_warning_lines := []
      folder_warning_lines := []
      config_writes := []
      index_write := none }
  else
    { exit_code := 0
      error_lines := []
      startup_warning_lines := aws_startup_warnings bucket region
      folder_warning_lines :=
        pass_folder_warnings_aws base_path fs ++ pass_folder_warnings_aws base_path fs
      config_writes := (generate_all_configs_aws bucket region base_path fs).map (·.1)
      index_write := some (generate_trials_list_aws base_path fs) }

/-- The serialization options a `json.dump` call runs with: the `indent`
keyword, the `ensure_ascii` keyword (Python default: `True`), and the encoding
the target file handle was opened with. -/
structure DumpOpts where
  indent : Option Nat
  ensure_ascii : Bool
  encoding : String
deriving DecidableEq, Repr

/-- Options of the `json.dump` in `save_config_file` (generate_configs.py
lines 63-64): `indent=2, ensure_ascii=False`, file opened with
UTF-8 encoding. Identical in the AWS script (lines 67-68). -/
def save_config_file_opts : DumpOpts :=
  { indent := some 2, ensure_ascii := false, encoding := "utf-8" }

/-- Options of the `json.dump` in `generate_trials_list` (generate_configs.py
lines 124-125): `indent=2` only, so `ensure_ascii` keeps its Python default
`True`; file opened with UTF-8 encoding. Identical in the AWS script
(lines 131-132). -/
def trials_list_dump_opts : DumpOpts :=
  { indent := some 2, ensure_ascii := true, encoding := "utf-8" }

/-- One hexadecimal digit, lowercase, as Python's `\uXXXX` escapes use. -/
def hexDigitChar (n : Nat) : Char :=
  if n < 10 then Char.ofNat (48 + n) else Char.ofNat (87 + n)

/-- Four-digit lowercase hexadecimal rendering of a code unit. -/
def hex4 (n : Nat) : String :=
  String.mk [hexDigitChar (n / 4096 % 16), hexDigitChar (n / 256 % 16),
             hexDigitChar (n / 16 % 16), hexDigitChar (n % 16)]

/-- Python json `\uXXXX` escape of a code point: a single escape inside the
basic multilingual plane, a UTF-16 surrogate pair above it. -/
def uEscape (n : Nat) : String :=
  if n ≤ 0xFFFF then "\\u" ++ hex4 n
  else
    "\\u" ++ hex4 (0xD800 + (n - 0x10000) / 1024) ++
    "\\u" ++ hex4 (0xDC00 + (n - 0x10000) % 1024)

/-- How Python's json encoder renders one character of a string: backslash,
quote and the control characters are always escaped; with `ensure_ascii=True`
every character outside the printable ASCII range 0x20-0x7e is `\u`-escaped as
well, while with `ensure_ascii=False` it is written as itself. -/
def jsonEscapeChar (ea : Bool) (c : Char) : String :=
  if c = Char.ofNat 92 then "\\\\"
  else if c = Char.ofNat 34 then "\\\""
  else if c.toNat = 8 then "\\b"
  else if c.toNat = 9 then "\\t"
  else if c.toNat = 10 then "\\n"
  else if c.toNat = 12 then "\\f"
  else if c.toNat = 13 then "\\r"
  else if c.toNat < 32 then "\\u" ++ hex4 c.toNat
  else if ea && 126 < c.toNat then uEscape c.toNat
  else String.singleton c

/-- Python json rendering of a string literal under the given `ensure_ascii`
setting. -/
def jsonEncodeString (ea : Bool) (s : String) : String :=
  "\"" ++ String.join (s.toList.map (jsonEscapeChar ea)) ++ "\""

/-- Rendering by `json.dump(entry, indent=2)` of one `audioFiles` element at its
nesting depth inside the config object. -/
def dumpAudioEntry (ea : Bool) (e : AudioEntry) : String :=
  "    \x7b\n      \"circle\": " ++ toString e.circle ++
  ",\n      \"filename\": " ++ jsonEncodeString ea e.filename ++
  ",\n      \"url\": " ++ jsonEncodeString ea e.url ++ "\n    \x7d"

/-- The `audioFiles` array as `json.dump(..., indent=2)` renders it. -/
def dumpAudioFiles (ea : Bool) (es : List AudioEntry) : String :=
  match es with
  | [] => "[]"
  | _ => "[\n" ++ String.intercalate ",\n" (es.map (dumpAudioEntry ea)) ++ "\n  ]"

/-- The bytes `save_config_file` writes into `config.json`:
`json.dump(config_data, f, indent=2, ensure_ascii=False)`. -/
def dumpConfig (ea : Bool) (c : Config) : String :=
  "\x7b\n  \"trialId\": " ++ jsonEncodeString ea c.trialId ++
  ",\n  \"audioFiles\": " ++ dumpAudioFiles ea c.audioFiles ++ "\n\x7d"

/-- One `trials` element as `json.dump(..., indent=2)` renders it. -/
def dumpIndexEntry (ea : Bool) (e : TrialIndexEntry) : String :=
  "    \x7b\n      \"id\": " ++ jsonEncodeString ea e.id ++
  ",\n      \"name\": " ++ jsonEncodeString ea e.name ++
  ",\n      \"numFiles\": " ++ toString e.numFiles ++ "\n    \x7d"

/-- The bytes `generate_trials_list` writes into `trials_list.json`:
`json.dump(\x7b"trials": trials_list\x7d, f, indent=2)`. -/
def dumpTrialsList (ea : Bool) (ts : List TrialIndexEntry) : String :=
  "\x7b\n  \"trials\": " ++
  (match ts with
   | [] => "[]"
   | _ => "[\n" ++ String.intercalate ",\n" (ts.map (dumpIndexEntry ea)) ++ "\n  ]") ++
  "\n\x7d"

/-- A folder listing after `config.json` was written into the folder: the name
appears once; an overwrite of an existing `config.json` leaves the listing
unchanged. -/
def add_config_json (entries : List String) : List String :=
  if "config.json" ∈ entries then entries else entries ++ ["config.json"]

/-- The on-disk tree after the first run of generate_configs.py: every trial
folder the run wrote a `config.json` into now also lists that name. The file
`trials_list.json` lands at `BASE_PATH` itself, not inside any trial folder, so
no trial folder listing gains it. -/
def after_first_run (base : String) (fs : FS) : FS := fun t =>
  match fs t with
  | none => none
  | some entries =>
      if t ∈ generate_trial_folders ∧
          (get_audio_files (trial_path base t) (some entries)).2 ≠ [] then
        some (add_config_json entries)
      else some entries

/-! ## Helper lemmas -/

/-- A `filterMap` whose body is an if-then-skip-else-keep is a `filter`
followed by a `map`. -/
theorem filterMap_skip_eq_filter_map {α β : Type} (p : α → Bool) (f : α → β)
    (l : List α) :
    l.filterMap (fun a => if p a then none else some (f a)) =
      (l.filter (fun a => !p a)).map f := by
  induction l with
  | nil => rfl
  | cons a l ih =>
      by_cases h : p a <;>
        simp [List.filterMap_cons, List.filter_cons, h, ih]

/-- The manifest built for `n` input files has `n` entries. -/
theorem create_config_json_length (trial_name : String) (audio_files : List String) :
    (create_config_json trial_name audio_files).audioFiles.length =
      audio_files.length := by
  simp [create_config_json, List.length_map, List.enum_length]

/-- AWS variant of `create_config_json_length`. -/
theorem create_config_json_aws_length (bucket region trial_name : String)
    (audio_files : List String) :
    (create_config_json_aws bucket region trial_name audio_files).audioFiles.length =
      audio_files.length := by
  simp [create_config_json_aws, List.length_map, List.enum_length]

/-- Lemma: `generate_trials_list` in filter-then-map form. -/
theorem generate_trials_list_eq_filter_map (base : String) (fs : FS) :
    generate_trials_list base fs =
      (generate_trial_folders.filter (fun t =>
          !(get_audio_files (trial_path base t) (fs t)).2.isEmpty)).map
        (fun t => ⟨t, replace_underscores t,
                   (get_audio_files (trial_path base t) (fs t)).2.length⟩) := by
  simpa [generate_trials_list] using
    filterMap_skip_eq_filter_map
      (fun t => (get_audio_files (trial_path base t) (fs t)).2.isEmpty)
      (fun t => (⟨t, replace_underscores t,
                  (get_audio_files (trial_path base t) (fs t)).2.length⟩ :
                  TrialIndexEntry))
      generate_trial_folders

/-- The pattern `"*.wav"` matches exactly the names ending in `".wav"`. -/
theorem globMatches_wav : globMatches "*.wav" = fun f => strEndsWith f ".wav" := by
  funext f
  have h : ("*.wav").drop 1 = ".wav" := by decide
  simp [globMatches, h]

/-- The pattern `"*.mp3"` matches exactly the names ending in `".mp3"`. -/
theorem globMatches_mp3 : globMatches "*.mp3" = fun f => strEndsWith f ".mp3" := by
  funext f
  have h : ("*.mp3").drop 1 = ".mp3" := by decide
  simp [globMatches, h]

/-! ## Claim theorems -/

/-- C4: `generate_trial_folders` is a pure function that always returns the
same ordered sequence of exactly 24 identifiers — listed explicitly in the
nested iteration order gender, then style, then pair — with no duplicates, and
equal as a set to the cross product of the gender, style and pairing
vocabularies. -/
theorem generate_trial_folders_spec :
    generate_trial_folders.length = 24 ∧
    generate_trial_folders.Nodup ∧
    (∀ s : String, s ∈ generate_trial_folders ↔
      ∃ g ∈ GENDERS, ∃ st ∈ STYLES, ∃ mg ∈ MG_COMBINATIONS,
        s = g ++ "_" ++ st ++ "_" ++ mg) ∧
    generate_trial_folders =
      ["Male_read_MG1_MG2", "Male_read_MG1_MG3", "Male_read_MG1_MG4",
       "Male_read_MG2_MG3", "Male_read_MG2_MG4", "Male_read_MG3_MG4",
       "Male_conv_MG1_MG2", "Male_conv_MG1_MG3", "Male_conv_MG1_MG4",
       "Male_conv_MG2_MG3", "Male_conv_MG2_MG4", "Male_conv_MG3_MG4",
       "Female_read_MG1_MG2", "Female_read_MG1_MG3", "Female_read_MG1_MG4",
       "Female_read_MG2_MG3", "Female_read_MG2_MG4", "Female_read_MG3_MG4",
       "Female_conv_MG1_MG2", "Female_conv_MG1_MG3", "Female_conv_MG1_MG4",
       "Female_conv_MG2_MG3", "Female_conv_MG2_MG4", "Female_conv_MG3_MG4"] := by
  refine ⟨by decide, by decide, ?_, by decide⟩
  intro s
  simp only [generate_trial_folders, List.mem_flatMap, List.mem_map]
  constructor
  · rintro ⟨g, hg, st, hst, mg, hmg, h⟩
    exact ⟨g, hg, st, hst, mg, hmg, h.symm⟩
  · rintro ⟨g, hg, st, hst, mg, hmg, h⟩
    exact ⟨g, hg, st, hst, mg, hmg, h.symm⟩

/-- C3: for every existing trial folder, the AWS `get_audio_files` returns the
`*.wav` matches in ascending lexicographic order followed by the `*.mp3`
matches in ascending lexicographic order — each block sorted and a permutation
of the corresponding matches — so grouping by extension takes precedence over a
merged sort, and the folder `b.wav, a.mp3` yields `[b.wav, a.mp3]`. -/
theorem get_audio_files_aws_grouped (p : String) (entries : List String) :
    (get_audio_files_aws p (some entries)).2 =
      pySorted (entries.filter (fun f => strEndsWith f ".wav")) ++
        pySorted (entries.filter (fun f => strEndsWith f ".mp3")) ∧
    List.Sorted (· ≤ ·) (pySorted (entries.filter (fun f => strEndsWith f ".wav"))) ∧
    List.Sorted (· ≤ ·) (pySorted (entries.filter (fun f => strEndsWith f ".mp3"))) ∧
    List.Perm (pySorted (entries.filter (fun f => strEndsWith f ".wav")))
      (entries.filter (fun f => strEndsWith f ".wav")) ∧
    List.Perm (pySorted (entries.filter (fun f => strEndsWith f ".mp3")))
      (entries.filter (fun f => strEndsWith f ".mp3")) ∧
    (get_audio_files_aws "folder" (some ["b.wav", "a.mp3"])).2 = ["b.wav", "a.mp3"] := by
  refine ⟨?_, List.sorted_insertionSort _ _, List.sorted_insertionSort _ _,
    List.perm_insertionSort _ _, List.perm_insertionSort _ _, ?_⟩
  · simp [get_audio_files_aws, globMatches_wav, globMatches_mp3]
  · decide

/-- C5: for every trial id and list of N filenames, `create_config_json` (in
both scripts) returns a manifest with exactly N `audioFiles` entries whose i-th
entry carries `circle = i + 1` (so the circle values are the contiguous
sequence 1..N), the i-th input filename, and the URL built by the script's
resolver from the trial id and that filename. -/
theorem create_config_json_spec (bucket region trial_name : String)
    (audio_files : List String) (i : Nat) (h : i < audio_files.length) :
    (create_config_json trial_name audio_files).audioFiles.length =
      audio_files.length ∧
    (create_config_json trial_name audio_files).audioFiles[i]? =
      some ⟨i + 1, audio_files.get ⟨i, h⟩,
            github_audio_url trial_name (audio_files.get ⟨i, h⟩)⟩ ∧
    (create_config_json_aws bucket region trial_name audio_files).audioFiles.length =
      audio_files.length ∧
    (create_config_json_aws bucket region trial_name audio_files).audioFiles[i]? =
      some ⟨i + 1, audio_files.get ⟨i, h⟩,
            s3_audio_url bucket region trial_name (audio_files.get ⟨i, h⟩)⟩ := by
  refine ⟨create_config_json_length trial_name audio_files, ?_,
    create_config_json_aws_length bucket region trial_name audio_files, ?_⟩ <;>
    simp [create_config_json, create_config_json_aws, List.getElem?_map,
      List.getElem?_enum, List.getElem?_eq_getElem h, List.get_eq_getElem]

/-- Closed witness for `create_config_json_spec` at trial `"T"`, input files
`["a.wav", "b.wav"]` and index 1. -/
theorem create_config_json_spec_witness :
    1 < (["a.wav", "b.wav"] : List String).length ∧
    ((create_config_json "T" ["a.wav", "b.wav"]).audioFiles.length = 2 ∧
     (create_config_json "T" ["a.wav", "b.wav"]).audioFiles[1]? =
       some ⟨2, "b.wav", github_audio_url "T" "b.wav"⟩ ∧
     (create_config_json_aws "b" "r" "T" ["a.wav", "b.wav"]).audioFiles.length = 2 ∧
     (create_config_json_aws "b" "r" "T" ["a.wav", "b.wav"]).audioFiles[1]? =
       some ⟨2, "b.wav", s3_audio_url "b" "r" "T" "b.wav"⟩) :=
  ⟨by decide,
   create_config_json_spec "b" "r" "T" ["a.wav", "b.wav"] 1 (by decide)⟩

/-- C6: a `config.json` is written for a trial identifier, and the identifier
appears in the `trials_list.json` value, exactly when the identifier is one of
the 24 enumerated trials and its folder listing yields at least one matching
audio file. -/
theorem manifest_iff_files_found (base : String) (fs : FS) (t : String) :
    ((∃ w ∈ (generate_all_configs base fs).map Prod.fst, w.trial = t) ↔
      t ∈ generate_trial_folders ∧
        (get_audio_files (trial_path base t) (fs t)).2 ≠ []) ∧
    ((∃ e ∈ generate_trials_list base fs, e.id = t) ↔
      t ∈ generate_trial_folders ∧
        (get_audio_files (trial_path base t) (fs t)).2 ≠ []) := by
  constructor
  · constructor
    · rintro ⟨w, hw, rfl⟩
      rcases List.mem_map.mp hw with ⟨pr, hpr, rfl⟩
      rcases List.mem_filterMap.mp hpr with ⟨a, ha, hfa⟩
      by_cases hchk : ((get_audio_files (trial_path base a) (fs a)).2).isEmpty
      · simp [hchk] at hfa
      · simp only [hchk, Bool.false_eq_true, if_false, Option.some.injEq] at hfa
        cases hfa
        exact ⟨ha, List.isEmpty_eq_false.mp (Bool.not_eq_true _ ▸ (by simpa using hchk))⟩
    · rintro ⟨ht, hne⟩
      refine ⟨⟨t, create_config_json t (get_audio_files (trial_path base t) (fs t)).2⟩,
        ?_, rfl⟩
      refine List.mem_map.mpr
        ⟨(⟨t, create_config_json t (get_audio_files (trial_path base t) (fs t)).2⟩,
          ⟨t, (get_audio_files (trial_path base t) (fs t)).2.length⟩), ?_, rfl⟩
      refine List.mem_filterMap.mpr ⟨t, ht, ?_⟩
      simp [List.isEmpty_eq_false.mpr hne]
  · constructor
    · rintro ⟨e, he, rfl⟩
      rcases List.mem_filterMap.mp he with ⟨a, ha, hfa⟩
      by_cases hchk : ((get_audio_files (trial_path base a) (fs a)).2).isEmpty
      · simp [hchk] at hfa
      · simp only [hchk, Bool.false_eq_true, if_false, Option.some.injEq] at hfa
        cases hfa
        exact ⟨ha, List.isEmpty_eq_false.mp (by simpa using hchk)⟩
    · rintro ⟨ht, hne⟩
      refine ⟨⟨t, replace_underscores t,
        (get_audio_files (trial_path base t) (fs t)).2.length⟩, ?_, rfl⟩
      refine List.mem_filterMap.mpr ⟨t, ht, ?_⟩
      simp [List.isEmpty_eq_false.mpr hne]

/-- No element produced by a skip-if-empty `filterMap` projects to a trial
whose file listing is empty. -/
theorem not_in_filterMap_skip {β : Type} (l : List String)
    (files : String → List String) (f : String → β) (tr : β → String) (t : String)
    (hf : ∀ a, tr (f a) = a) (hempty : files t = []) :
    ∀ b ∈ l.filterMap (fun a => if (files a).isEmpty then none else some (f a)),
      tr b ≠ t := by
  intro b hb heq
  rcases List.mem_filterMap.mp hb with ⟨a, ha, hfa⟩
  by_cases hchk : (files a).isEmpty
  · simp [hchk] at hfa
  · simp only [hchk, Bool.false_eq_true, if_false, Option.some.injEq] at hfa
    subst hfa
    rw [hf a] at heq
    subst heq
    simp [hempty] at hchk

/-- C7: when a trial folder does not exist, `get_audio_files` of either script
returns the empty listing together with the warning line; the warning is among
the lines one pass over all trials emits; and the trial appears neither in the
summary of `generate_all_configs` nor in the `trials_list.json` value, in
either script. -/
theorem missing_folder_skipped (bucket region base : String) (fs : FS) (t : String)
    (ht : t ∈ generate_trial_folders) (hmiss : fs t = none) :
    get_audio_files (trial_path base t) (fs t) =
      ([missingFolderWarning (trial_path base t)], []) ∧
    get_audio_files_aws (trial_path base t) (fs t) =
      ([missingFolderWarning (trial_path base t)], []) ∧
    missingFolderWarning (trial_path base t) ∈ pass_folder_warnings base fs ∧
    missingFolderWarning (trial_path base t) ∈ pass_folder_warnings_aws base fs ∧
    (∀ pr ∈ generate_all_configs base fs, pr.2.trial ≠ t) ∧
    (∀ e ∈ generate_trials_list base fs, e.id ≠ t) ∧
    (∀ pr ∈ generate_all_configs_aws bucket region base fs, pr.2.trial ≠ t) ∧
    (∀ e ∈ generate_trials_list_aws base fs, e.id ≠ t) := by
  have hga : get_audio_files (trial_path base t) (fs t) =
      ([missingFolderWarning (trial_path base t)], []) := by
    rw [hmiss]; rfl
  have hgaw : get_audio_files_aws (trial_path base t) (fs t) =
      ([missingFolderWarning (trial_path base t)], []) := by
    rw [hmiss]; rfl
  have hz : (get_audio_files (trial_path base t) (fs t)).2 = [] := by rw [hga]
  have hzw : (get_audio_files_aws (trial_path base t) (fs t)).2 = [] := by rw [hgaw]
  refine ⟨hga, hgaw, ?_, ?_, ?_, ?_, ?_, ?_⟩
  · exact List.mem_flatMap.mpr ⟨t, ht, by rw [hga]; exact List.mem_singleton.mpr rfl⟩
  · exact List.mem_flatMap.mpr ⟨t, ht, by rw [hgaw]; exact List.mem_singleton.mpr rfl⟩
  · exact not_in_filterMap_skip generate_trial_folders
      (fun a => (get_audio_files (trial_path base a) (fs a)).2)
      (fun a => (⟨⟨a, create_config_json a ((get_audio_files (trial_path base a) (fs a)).2)⟩,
                  ⟨a, ((get_audio_files (trial_path base a) (fs a)).2).length⟩⟩ :
                  ConfigWrite × SummaryItem))
      (fun pr => pr.2.trial) t (fun a => rfl) hz
  · exact not_in_filterMap_skip generate_trial_folders
      (fun a => (get_audio_files (trial_path base a) (fs a)).2)
      (fun a => (⟨a, replace_underscores a,
                  ((get_audio_files (trial_path base a) (fs a)).2).length⟩ :
                  TrialIndexEntry))
      (fun e => e.id) t (fun a => rfl) hz
  · exact not_in_filterMap_skip generate_trial_folders
      (fun a => (get_audio_files_aws (trial_path base a) (fs a)).2)
      (fun a => (⟨⟨a, create_config_json_aws bucket region a
                    ((get_audio_files_aws (trial_path base a) (fs a)).2)⟩,
                  ⟨a, ((get_audio_files_aws (trial_path base a) (fs a)).2).length⟩⟩ :
                  ConfigWrite × SummaryItem))
      (fun pr => pr.2.trial) t (fun a => rfl) hzw
  · exact not_in_filterMap_skip generate_trial_folders
      (fun a => (get_audio_files_aws (trial_path base a) (fs a)).2)
      (fun a => (⟨a, replace_underscores a,
                  ((get_audio_files_aws (trial_path base a) (fs a)).2).length⟩ :
                  TrialIndexEntry))
      (fun e => e.id) t (fun a => rfl) hzw

/-- Closed witness for `missing_folder_skipped`: the empty tree and the first
trial identifier. -/
theorem missing_folder_skipped_witness :
    "Male_read_MG1_MG2" ∈ generate_trial_folders ∧
    (fun _ => (none : Option (List String))) "Male_read_MG1_MG2" = none ∧
    (get_audio_files (trial_path "/b" "Male_read_MG1_MG2")
        ((fun _ => (none : Option (List String))) "Male_read_MG1_MG2") =
      ([missingFolderWarning (trial_path "/b" "Male_read_MG1_MG2")], []) ∧
     get_audio_files_aws (trial_path "/b" "Male_read_MG1_MG2")
        ((fun _ => (none : Option (List String))) "Male_read_MG1_MG2") =
      ([missingFolderWarning (trial_path "/b" "Male_read_MG1_MG2")], []) ∧
     missingFolderWarning (trial_path "/b" "Male_read_MG1_MG2") ∈
       pass_folder_warnings "/b" (fun _ => none) ∧
     missingFolderWarning (trial_path "/b" "Male_read_MG1_MG2") ∈
       pass_folder_warnings_aws "/b" (fun _ => none) ∧
     (∀ pr ∈ generate_all_configs "/b" (fun _ => none),
        pr.2.trial ≠ "Male_read_MG1_MG2") ∧
     (∀ e ∈ generate_trials_list "/b" (fun _ => none),
        e.id ≠ "Male_read_MG1_MG2") ∧
     (∀ pr ∈ generate_all_configs_aws "bkt" "rgn" "/b" (fun _ => none),
        pr.2.trial ≠ "Male_read_MG1_MG2") ∧
     (∀ e ∈ generate_trials_list_aws "/b" (fun _ => none),
        e.id ≠ "Male_read_MG1_MG2")) :=
  ⟨by decide, rfl,
   missing_folder_skipped "bkt" "rgn" "/b" (fun _ => none) "Male_read_MG1_MG2"
     (by decide) rfl⟩

/-- C8: the `trials_list.json` value is exactly one entry per trial with a
non-empty file listing, taken in the trial generation order, whose `id` is the
identifier, whose `name` is the identifier with every underscore replaced by a
space, and whose `numFiles` is the count of discovered files; concretely the
identifier `Male_read_MG1_MG2` is displayed as `Male read MG1 MG2`. -/
theorem trials_list_entries_spec (base : String) (fs : FS) :
    generate_trials_list base fs =
      (generate_trial_folders.filter (fun t =>
          !(get_audio_files (trial_path base t) (fs t)).2.isEmpty)).map
        (fun t => ⟨t, replace_underscores t,
                   (get_audio_files (trial_path base t) (fs t)).2.length⟩) ∧
    replace_underscores "Male_read_MG1_MG2" = "Male read MG1 MG2" :=
  ⟨generate_trials_list_eq_filter_map base fs, by decide⟩

/-- Listing audio files is blind to the `config.json` a previous run added to
the folder: the name matches neither glob pattern. -/
theorem get_audio_files_after_first_run (base p : String) (fs : FS) (t : String) :
    get_audio_files p (after_first_run base fs t) = get_audio_files p (fs t) := by
  unfold after_first_run
  cases h : fs t with
  | none => rfl
  | some entries =>
      have hfil : (add_config_json entries).filter (globMatches "*.wav") =
          entries.filter (globMatches "*.wav") := by
        unfold add_config_json
        by_cases hm : "config.json" ∈ entries
        · rw [if_pos hm]
        · rw [if_neg hm, List.filter_append]
          have h0 : (["config.json"] : List String).filter (globMatches "*.wav") = [] := by
            decide
          rw [h0, List.append_nil]
      dsimp only
      by_cases hc : t ∈ generate_trial_folders ∧
          (get_audio_files (trial_path base t) (some entries)).2 ≠ []
      · rw [if_pos hc]
        simp [get_audio_files, hfil]
      · rw [if_neg hc]

/-- C9: a second run of generate_configs.py over the tree left behind by the
first run reproduces the first run's outputs exactly — the same `config.json`
values and `trials_list.json` value, hence byte-identical serialized files —
because the `config.json` files the first run dropped into the trial folders
match neither `*.wav` nor `*.mp3` (nor would `trials_list.json`, which in any
case lands at the base path, outside every trial folder). -/
theorem second_run_identical (base : String) (fs : FS) :
    generate_all_configs base (after_first_run base fs) =
      generate_all_configs base fs ∧
    generate_trials_list base (after_first_run base fs) =
      generate_trials_list base fs ∧
    ((generate_all_configs base (after_first_run base fs)).map (fun pr =>
        (pr.1.trial, dumpConfig save_config_file_opts.ensure_ascii pr.1.config))) =
      ((generate_all_configs base fs).map (fun pr =>
        (pr.1.trial, dumpConfig save_config_file_opts.ensure_ascii pr.1.config))) ∧
    dumpTrialsList trials_list_dump_opts.ensure_ascii
        (generate_trials_list base (after_first_run base fs)) =
      dumpTrialsList trials_list_dump_opts.ensure_ascii
        (generate_trials_list base fs) ∧
    globMatches "*.wav" "config.json" = false ∧
    globMatches "*.mp3" "config.json" = false ∧
    globMatches "*.wav" "trials_list.json" = false ∧
    globMatches "*.mp3" "trials_list.json" = false := by
  have key : ∀ t : String,
      get_audio_files (trial_path base t) (after_first_run base fs t) =
        get_audio_files (trial_path base t) (fs t) :=
    fun t => get_audio_files_after_first_run base (trial_path base t) fs t
  have h1 : generate_all_configs base (after_first_run base fs) =
      generate_all_configs base fs := by
    unfold generate_all_configs
    exact List.filterMap_congr (fun t _ => by rw [key t])
  have h2 : generate_trials_list base (after_first_run base fs) =
      generate_trials_list base fs := by
    unfold generate_trials_list
    exact List.filterMap_congr (fun t _ => by rw [key t])
  exact ⟨h1, h2, by rw [h1], by rw [h2], by decide, by decide, by decide, by decide⟩

/-- C10: the two independent passes agree: the `trials_list.json` value is the
image of the `generate_all_configs` output under the evident projection, so the
trials that got a `config.json` are exactly the ids listed in
`trials_list.json`, in the same order, and each entry's `numFiles` equals the
length of the `audioFiles` array of that trial's `config.json`. -/
theorem passes_agree (base : String) (fs : FS) :
    generate_trials_list base fs =
      (generate_all_configs base fs).map (fun pr =>
        ⟨pr.1.trial, replace_underscores pr.1.trial,
         pr.1.config.audioFiles.length⟩) ∧
    (generate_all_configs base fs).map (fun pr => pr.1.trial) =
      (generate_trials_list base fs).map (fun e => e.id) := by
  have h1 : generate_trials_list base fs =
      (generate_all_configs base fs).map (fun pr =>
        ⟨pr.1.trial, replace_underscores pr.1.trial,
         pr.1.config.audioFiles.length⟩) := by
    unfold generate_trials_list generate_all_configs
    rw [List.map_filterMap]
    refine List.filterMap_congr (fun t _ => ?_)
    by_cases hchk : ((get_audio_files (trial_path base t) (fs t)).2).isEmpty
    · simp [hchk]
    · simp [hchk, create_config_json_length]
  refine ⟨h1, ?_⟩
  rw [h1, List.map_map]
  rfl

/-- A concrete tree with one audio file in the first trial folder and every
other folder absent. -/
def demo_fs : FS := fun t =>
  if t = "Male_read_MG1_MG2" then some ["a.wav"] else none

/-- C1 counterexample: with `S3_BUCKET_NAME` left at its documented placeholder
value `"listening-test-audio-files"` (and `S3_REGION` at its shipped default
`"us-west-1"`), the AWS script does NOT abort: it exits 0, writes a
`config.json` and `trials_list.json`, and for the region it does not even print
a warning, because the check compares against `"us-west-2"` rather than the
shipped value. -/
theorem aws_placeholder_does_not_abort :
    (main_aws "/data/lt" S3_BUCKET_NAME_default S3_REGION_default demo_fs).exit_code
      = 0 ∧
    (main_aws "/data/lt" S3_BUCKET_NAME_default S3_REGION_default demo_fs).config_writes
      ≠ [] ∧
    (main_aws "/data/lt" S3_BUCKET_NAME_default S3_REGION_default demo_fs).index_write
      ≠ none ∧
    (main_aws "/data/lt" S3_BUCKET_NAME_default S3_REGION_default demo_fs).error_lines
      = [] ∧
    aws_startup_warnings S3_BUCKET_NAME_default S3_REGION_default =
      ["WARNING: Using default bucket name \x27listening-test-audio-files\x27",
       "Make sure this matches your actual S3 bucket name!"] := by
  refine ⟨?_, ?_, ?_, ?_, ?_⟩ <;> decide

/-- C1 amended: only `BASE_PATH` at its placeholder aborts. In both scripts
that abort happens before any filesystem access — for every tree the result is
exit code 1, the instructional error lines, no `config.json` write and no
`trials_list.json` write — while the AWS bucket and region checks never abort:
at the shipped defaults the run completes with exit code 0 and only the bucket
warning printed. -/
theorem placeholder_abort_spec (fs : FS) (bucket region : String) :
    main_github BASE_PATH_placeholder fs =
      ⟨1, base_path_error_lines, [], [], [], none⟩ ∧
    main_aws BASE_PATH_placeholder bucket region fs =
      ⟨1, base_path_error_lines_aws, [], [], [], none⟩ ∧
    base_path_error_lines ≠ [] ∧
    base_path_error_lines_aws ≠ [] ∧
    (main_aws "/data/lt" S3_BUCKET_NAME_default S3_REGION_default fs).exit_code = 0 ∧
    (main_aws "/data/lt" S3_BUCKET_NAME_default S3_REGION_default fs).startup_warning_lines =
      ["WARNING: Using default bucket name \x27listening-test-audio-files\x27",
       "Make sure this matches your actual S3 bucket name!"] := by
  have hg : main_github BASE_PATH_placeholder fs =
      ⟨1, base_path_error_lines, [], [], [], none⟩ := by
    unfold main_github
    rw [if_pos rfl]
  have ha : main_aws BASE_PATH_placeholder bucket region fs =
      ⟨1, base_path_error_lines_aws, [], [], [], none⟩ := by
    unfold main_aws
    rw [if_pos rfl]
  have hne : ("/data/lt" : String) = BASE_PATH_placeholder ↔ False := by decide
  have hrun : main_aws "/data/lt" S3_BUCKET_NAME_default S3_REGION_default fs =
      { exit_code := 0
        error_lines := []
        startup_warning_lines :=
          aws_startup_warnings S3_BUCKET_NAME_default S3_REGION_default
        folder_warning_lines :=
          pass_folder_warnings_aws "/data/lt" fs ++
            pass_folder_warnings_aws "/data/lt" fs
        config_writes :=
          (generate_all_configs_aws S3_BUCKET_NAME_default S3_REGION_default
            "/data/lt" fs).map (·.1)
        index_write := some (generate_trials_list_aws "/data/lt" fs) } := by
    unfold main_aws
    rw [if_neg (by simp [hne])]
  refine ⟨hg, ha, by decide, by decide, by rw [hrun], ?_⟩
  rw [hrun]
  show aws_startup_warnings S3_BUCKET_NAME_default S3_REGION_default = _
  decide

/-- C2 counterexample: the two `json.dump` call sites do not share one
formatting contract — the `trials_list.json` dump leaves `ensure_ascii` at
Python's default `True`, so a non-ASCII character such as `é` would be written
`\u00e9` there while `save_config_file` writes it unescaped. -/
theorem trials_list_formatting_differs :
    trials_list_dump_opts ≠ save_config_file_opts ∧
    jsonEncodeString trials_list_dump_opts.ensure_ascii "é" = "\"\\u00e9\"" ∧
    jsonEncodeString save_config_file_opts.ensure_ascii "é" = "\"é\"" := by
  refine ⟨?_, ?_, ?_⟩ <;> decide

/-- Rendering a `trials` array is insensitive to `ensure_ascii` when every
entry renders identically under both settings. -/
theorem dumpTrialsList_congr (ts : List TrialIndexEntry)
    (h : ∀ e ∈ ts, dumpIndexEntry true e = dumpIndexEntry false e) :
    dumpTrialsList true ts = dumpTrialsList false ts := by
  unfold dumpTrialsList
  cases ts with
  | nil => rfl
  | cons e es =>
      have hmap : (e :: es).map (dumpIndexEntry true) =
          (e :: es).map (dumpIndexEntry false) := List.map_congr_left h
      simp only [hmap]

/-- Every trial identifier and its display name encode identically with and
without `ensure_ascii`: they are pure ASCII. -/
theorem trial_strings_ascii :
    ∀ t ∈ generate_trial_folders,
      jsonEncodeString true t = jsonEncodeString false t ∧
      jsonEncodeString true (replace_underscores t) =
        jsonEncodeString false (replace_underscores t) := by
  decide

/-- C2 amended: the `trials_list.json` dump shares the 2-space indentation and
UTF-8 encoding of the manifest dump but leaves `ensure_ascii` at Python's
default `True`, so non-ASCII characters would be `\u`-escaped there, not left
unescaped; on the data this program actually writes into `trials_list.json`
(pure-ASCII trial ids, names and counts) the bytes nevertheless coincide with
what `ensure_ascii=False` would produce. -/
theorem trials_list_formatting_spec :
    trials_list_dump_opts.indent = save_config_file_opts.indent ∧
    trials_list_dump_opts.encoding = save_config_file_opts.encoding ∧
    trials_list_dump_opts.ensure_ascii = true ∧
    save_config_file_opts.ensure_ascii = false ∧
    jsonEncodeString true "é" = "\"\\u00e9\"" ∧
    (∀ base : String, ∀ fs : FS,
      dumpTrialsList true (generate_trials_list base fs) =
        dumpTrialsList false (generate_trials_list base fs)) := by
  refine ⟨rfl, rfl, rfl, rfl, by decide, ?_⟩
  intro base fs
  refine dumpTrialsList_congr _ (fun e he => ?_)
  rw [generate_trials_list_eq_filter_map] at he
  rcases List.mem_map.mp he with ⟨t, htf, rfl⟩
  have ht : t ∈ generate_trial_folders := (List.mem_filter.mp htf).1
  have h := trial_strings_ascii t ht
  simp only [dumpIndexEntry]
  rw [h.1, h.2]

end ListeningTest







